import Mathlib

/-!
Verification of the traffic-safety data-warehouse ETL pipeline.

The Lean definitions below are a shallow embedding of the Python
sources `etl.py`, `creat_fact_table.py`, `fix_driver_age.py` and
`association_mining.py`.  DataFrames are modelled as lists of typed
rows; pandas nullable columns become `Option` fields; the pandas
operations used by the pipeline (filter, projection, drop_duplicates,
groupby + merge broadcast, fillna, median) are modelled as executable
list functions.  Theorems at the end of the file settle the spec
claims against these definitions.
-/

namespace TS

/-! ## Generic string helpers -/

/-- `zfill w s` left-pads `s` with zeros to width `w`
(Python `str.zfill` on non-negative content, as used on year/month strings). -/
def zfill (w : Nat) (s : String) : String :=
  if w ≤ s.length then s else String.mk (List.replicate (w - s.length) '0') ++ s

/-- Accumulating decimal-digit parser: fails on the first non-digit. -/
def digitsVal : Nat → List Char → Option Nat
  | acc, [] => some acc
  | acc, c :: t => if c.isDigit then digitsVal (acc * 10 + (c.toNat - 48)) t else none

/-- Python `int(...)` on a string: an optional minus sign followed by a
non-empty run of decimal digits; anything else raises (here: `none`). -/
def strToInt (s : String) : Option Int :=
  match s.data with
  | '-' :: rest => if rest.isEmpty then none else (digitsVal 0 rest).map (fun n => -(n : Int))
  | [] => none
  | l => (digitsVal 0 l).map (fun n => (n : Int))

/-- Boolean test that list `p` is an initial segment of `l`. -/
def prefixEq : List Char → List Char → Bool
  | [], _ => true
  | _ :: _, [] => false
  | a :: as, b :: bs => a = b && prefixEq as bs

/-- Boolean test that `needle` occurs contiguously inside `hay`. -/
def subSeq (needle : List Char) : List Char → Bool
  | [] => needle.isEmpty
  | c :: t => prefixEq needle (c :: t) || subSeq needle t

/-- Python's substring test `needle in hay` on strings. -/
def containsStr (hay needle : String) : Bool :=
  subSeq needle.data hay.data

/-! ## drop_duplicates -/

/-- Helper for `dropDups`: drop any element already seen, otherwise keep
it and remember it. -/
def dropDupsAux [DecidableEq α] (seen : List α) : List α → List α
  | [] => []
  | x :: t => if x ∈ seen then dropDupsAux seen t else x :: dropDupsAux (x :: seen) t

/-- pandas `drop_duplicates`: keep the first occurrence of every
distinct row, in order. -/
def dropDups [DecidableEq α] (l : List α) : List α := dropDupsAux [] l

theorem mem_dropDupsAux [DecidableEq α] (a : α) :
    ∀ (l : List α) (seen : List α), a ∈ dropDupsAux seen l ↔ (a ∈ l ∧ a ∉ seen)
  | [], seen => by simp [dropDupsAux]
  | x :: t, seen => by
    rw [dropDupsAux]
    by_cases hx : x ∈ seen
    · rw [if_pos hx, mem_dropDupsAux a t seen]
      constructor
      · rintro ⟨h1, h2⟩
        exact ⟨List.mem_cons_of_mem x h1, h2⟩
      · rintro ⟨h1, h2⟩
        rcases List.mem_cons.1 h1 with rfl | h1'
        · exact absurd hx h2
        · exact ⟨h1', h2⟩
    · rw [if_neg hx]
      simp only [List.mem_cons, mem_dropDupsAux a t (x :: seen)]
      constructor
      · rintro (rfl | ⟨h1, h2⟩)
        · exact ⟨Or.inl rfl, fun hs => hx hs⟩
        · exact ⟨Or.inr h1, fun hs => h2 (Or.inr hs)⟩
      · rintro ⟨h1, h2⟩
        by_cases hax : a = x
        · exact Or.inl hax
        · rcases h1 with rfl | h1'
          · exact absurd rfl hax
          · refine Or.inr ⟨h1', fun hs => ?_⟩
            rcases hs with rfl | hs'
            · exact hax rfl
            · exact h2 hs'

theorem mem_dropDups [DecidableEq α] {a : α} {l : List α} : a ∈ dropDups l ↔ a ∈ l := by
  rw [dropDups, mem_dropDupsAux]
  simp

/-! ## groupby + aggregate (count and sum), and merge-back lookup -/

/-- One step of a grouped aggregation: bump the (count, sum) entry for
key `k` by `(1, v)`, appending a fresh entry when `k` is new. -/
def insAgg [DecidableEq κ] (k : κ) (v : Int) : List (κ × Nat × Int) → List (κ × Nat × Int)
  | [] => [(k, 1, v)]
  | (k₀, c, s) :: t => if k₀ = k then (k₀, c + 1, s + v) :: t else (k₀, c, s) :: insAgg k v t

/-- pandas `groupby(key).agg(count, sum)`: one `(key, count, sum)` entry
per distinct key of `l`. -/
def groupAgg [DecidableEq κ] (key : α → κ) (val : α → Int) (l : List α) : List (κ × Nat × Int) :=
  l.foldl (fun acc r => insAgg (key r) (val r) acc) []

/-- Left-merge lookup of an aggregated table by key. -/
def lookupAgg [DecidableEq κ] (t : List (κ × Nat × Int)) (k : κ) : Option (Nat × Int) :=
  (t.find? (fun e => e.1 = k)).map (fun e => (e.2.1, e.2.2))

theorem lookupAgg_insAgg [DecidableEq κ] (t : List (κ × Nat × Int)) (k k₀ : κ) (v : Int) :
    lookupAgg (insAgg k₀ v t) k =
      if k₀ = k then
        match lookupAgg t k with
        | none => some (1, v)
        | some (c, s) => some (c + 1, s + v)
      else lookupAgg t k := by
  induction t with
  | nil =>
    by_cases h : k₀ = k
    · subst h; simp [insAgg, lookupAgg]
    · simp [insAgg, lookupAgg, h]
  | cons e t ih =>
    obtain ⟨k₁, c₁, s₁⟩ := e
    by_cases h1 : k₁ = k₀
    · subst h1
      by_cases h2 : k₁ = k
      · subst h2; simp [insAgg, lookupAgg]
      · simp [insAgg, lookupAgg, h2]
    · by_cases h2 : k₁ = k
      · subst h2
        have h0 : ¬ k₀ = k₁ := fun h => h1 h.symm
        simp [insAgg, h1, lookupAgg, h0]
      · simp only [insAgg, if_neg h1]
        have hfind : ∀ (rest : List (κ × Nat × Int)),
            lookupAgg ((k₁, c₁, s₁) :: rest) k = lookupAgg rest k := by
          intro rest
          simp [lookupAgg, List.find?_cons_of_neg, h2]
        rw [hfind, hfind, ih]

theorem lookupAgg_groupAgg [DecidableEq κ] (key : α → κ) (val : α → Int)
    (l : List α) (k : κ) :
    lookupAgg (groupAgg key val l) k =
      if l.countP (fun r => key r = k) = 0 then none
      else some (l.countP (fun r => key r = k),
                 ((l.filter (fun r => key r = k)).map val).sum) := by
  induction l using List.reverseRecOn with
  | nil => simp [groupAgg, lookupAgg]
  | append_singleton t x ih =>
    have hstep : groupAgg key val (t ++ [x]) = insAgg (key x) (val x) (groupAgg key val t) := by
      simp [groupAgg, List.foldl_append]
    rw [hstep, lookupAgg_insAgg, ih]
    by_cases hx : key x = k
    · rw [if_pos hx]
      by_cases h0 : t.countP (fun r => key r = k) = 0
      · have hf : t.filter (fun r => decide (key r = k)) = [] := by
          have := List.countP_eq_length_filter (p := fun r => decide (key r = k)) t
          have hlen : (t.filter (fun r => decide (key r = k))).length = 0 := by
            omega
          exact List.eq_nil_of_length_eq_zero hlen

        simp [h0, hf, List.filter_append, List.countP_append, hx]
      · rw [if_neg h0]
        have hc : ¬ ((t ++ [x]).countP (fun r => key r = k) = 0) := by
          simp only [List.countP_append]
          intro hcontra
          omega
        rw [if_neg hc]
        simp [List.countP_append, List.filter_append, hx]
    · rw [if_neg hx]
      have hc : (t ++ [x]).countP (fun r => key r = k) = t.countP (fun r => key r = k) := by
        simp [List.countP_append, hx]
      have hfil : (t ++ [x]).filter (fun r => decide (key r = k)) =
          t.filter (fun r => decide (key r = k)) := by
        simp [List.filter_append, hx]
      rw [hc, hfil]

/-! ## Median (pandas `Series.median`, nulls already removed) -/

/-- Insert into a sorted list of rationals. -/
def insertSorted (x : ℚ) : List ℚ → List ℚ
  | [] => [x]
  | y :: t => if x ≤ y then x :: y :: t else y :: insertSorted x t

/-- Insertion sort on rationals. -/
def sortQ (l : List ℚ) : List ℚ := l.foldr insertSorted []

/-- pandas median of the non-null values: middle element for odd length,
average of the two middle elements for even length, `none` when empty. -/
def median (l : List ℚ) : Option ℚ :=
  let s := sortQ l
  let n := s.length
  if n = 0 then none
  else if n % 2 = 1 then s[n / 2]?
  else
    match s[n / 2 - 1]?, s[n / 2]? with
    | some a, some b => some ((a + b) / 2)
    | _, _ => none

theorem length_insertSorted (x : ℚ) (l : List ℚ) :
    (insertSorted x l).length = l.length + 1 := by
  induction l with
  | nil => simp [insertSorted]
  | cons y t ih =>
    by_cases h : x ≤ y
    · simp [insertSorted, h]
    · simp [insertSorted, h, ih]

theorem length_sortQ (l : List ℚ) : (sortQ l).length = l.length := by
  induction l with
  | nil => simp [sortQ]
  | cons y t ih =>
    simp only [sortQ, List.foldr_cons] at ih ⊢
    rw [length_insertSorted, ih, List.length_cons]

theorem median_isSome {l : List ℚ} (h : l ≠ []) : (median l).isSome := by
  have hlen : (sortQ l).length = l.length := length_sortQ l
  have hne : 0 < l.length := List.length_pos.mpr h
  unfold median
  simp only
  rw [if_neg (by omega)]
  by_cases hpar : (sortQ l).length % 2 = 1
  · rw [if_pos hpar]
    have : (sortQ l).length / 2 < (sortQ l).length := by omega
    rw [List.getElem?_eq_getElem this]
    simp
  · rw [if_neg hpar]
    have h2 : 2 ≤ (sortQ l).length := by omega
    have ha : (sortQ l).length / 2 - 1 < (sortQ l).length := by omega
    have hb : (sortQ l).length / 2 < (sortQ l).length := by omega
    rw [List.getElem?_eq_getElem ha, List.getElem?_eq_getElem hb]
    simp

/-! ## Season assignment and quarter (etl.py `get_season`, season rows) -/

/-- `get_season` from etl.py.  The month is `Option Int` because the raw
column is nullable; Python membership `month in [12, 1, 2]` is false for
NaN, so every non-listed value (including null, 0, 13) falls through to
the final `else` branch returning Spring. -/
def getSeason (month : Option Int) : String :=
  if month = some 12 ∨ month = some 1 ∨ month = some 2 then "Summer"
  else if month = some 3 ∨ month = some 4 ∨ month = some 5 then "Autumn"
  else if month = some 6 ∨ month = some 7 ∨ month = some 8 then "Winter"
  else "Spring"

/-- `(month - 1) // 3 + 1` with Python floor division. -/
def quarterOf (m : Nat) : Int := Int.fdiv ((m : Int) - 1) 3 + 1

/-! ## Raw records (etl.py loading, cleaning, filtering)

`-9` sentinels have already been replaced by nulls (`clean_missing_values`),
which is why the nullable columns are `Option` fields.  `Year` is
`Option Int` to model `pd.to_numeric(..., errors=coerce)`: a value that
fails coercion becomes null and is then excluded by the range filter. -/

structure RawCrash where
  crashId : Int := 0
  year : Option Int := none
  month : Nat := 1
  state : String := ""
  dayweek : Option String := none
  time : Option String := none
  dayOfWeek : Option String := none
  timeOfDay : Option String := none
  christmasPeriod : Option String := none
  easterPeriod : Option String := none
  remotenessArea : Option String := none
  sa4Name : Option String := none
  lgaName : Option String := none
  speedLimit : Option Int := none
  roadType : Option String := none
  busInv : Option Int := none
  hrtInv : Option Int := none
  artInv : Option Int := none
  crashType : Option String := none
  fatalities : Option Int := none
deriving DecidableEq

/-- A crash record that survived the year filter: same columns with the
coerced, in-window year. -/
structure Crash where
  crashId : Int := 0
  year : Int := 2001
  month : Nat := 1
  state : String := ""
  dayweek : Option String := none
  time : Option String := none
  dayOfWeek : Option String := none
  timeOfDay : Option String := none
  christmasPeriod : Option String := none
  easterPeriod : Option String := none
  remotenessArea : Option String := none
  sa4Name : Option String := none
  lgaName : Option String := none
  speedLimit : Option Int := none
  roadType : Option String := none
  busInv : Option Int := none
  hrtInv : Option Int := none
  artInv : Option Int := none
  crashType : Option String := none
  fatalities : Option Int := none
deriving DecidableEq

def toCrash (r : RawCrash) (y : Int) : Crash :=
  { crashId := r.crashId, year := y, month := r.month, state := r.state,
    dayweek := r.dayweek, time := r.time, dayOfWeek := r.dayOfWeek,
    timeOfDay := r.timeOfDay, christmasPeriod := r.christmasPeriod,
    easterPeriod := r.easterPeriod, remotenessArea := r.remotenessArea,
    sa4Name := r.sa4Name, lgaName := r.lgaName, speedLimit := r.speedLimit,
    roadType := r.roadType, busInv := r.busInv, hrtInv := r.hrtInv,
    artInv := r.artInv, crashType := r.crashType, fatalities := r.fatalities }

/-- etl.py lines 179-183: coerce `Year` to numeric and keep rows with
`2001 <= Year <= 2023` (a null year compares false and is dropped). -/
def filterCrashes (l : List RawCrash) : List Crash :=
  l.filterMap (fun r =>
    match r.year with
    | some y => if 2001 ≤ y ∧ y ≤ 2023 then some (toCrash r y) else none
    | none => none)

structure RawFatality where
  crashId : Int := 0
  year : Option Int := none
  roadUser : Option String := none
  gender : Option String := none
  age : Option ℚ := none
  ageGroup : Option String := none
deriving DecidableEq

structure Fatality where
  crashId : Int := 0
  year : Int := 2001
  roadUser : Option String := none
  gender : Option String := none
  age : Option ℚ := none
  ageGroup : Option String := none
deriving DecidableEq

def toFatality (r : RawFatality) (y : Int) : Fatality :=
  { crashId := r.crashId, year := y, roadUser := r.roadUser,
    gender := r.gender, age := r.age, ageGroup := r.ageGroup }

/-- etl.py lines 180-184 and 211-213: fatality rows are filtered to the
year window and then to crash ids present in the filtered crash set. -/
def filterFatalities (crashes : List Crash) (l : List RawFatality) : List Fatality :=
  (l.filterMap (fun r =>
    match r.year with
    | some y => if 2001 ≤ y ∧ y ≤ 2023 then some (toFatality r y) else none
    | none => none)).filter
      (fun f => (crashes.map (fun c => c.crashId)).contains f.crashId)

/-! ## Dimension extractors (etl.py sections 1-8) -/

structure LocationRow where
  crashId : Int := 0
  state : String := ""
  remotenessArea : Option String := none
  sa4Name : String := "Unknown"
  lgaName : String := "Unknown"
deriving DecidableEq

/-- Location dimension: projection, `fillna(Unknown)` on the SA4 and LGA
name columns, then `drop_duplicates`. -/
def locationDim (l : List Crash) : List LocationRow :=
  dropDups (l.map (fun r =>
    { crashId := r.crashId, state := r.state, remotenessArea := r.remotenessArea,
      sa4Name := r.sa4Name.getD "Unknown", lgaName := r.lgaName.getD "Unknown" }))

structure VehicleRow where
  crashId : Int := 0
  busInv : Option Int := none
  hrtInv : Option Int := none
  artInv : Option Int := none
deriving DecidableEq

def vehicleDim (l : List Crash) : List VehicleRow :=
  dropDups (l.map (fun r =>
    { crashId := r.crashId, busInv := r.busInv, hrtInv := r.hrtInv, artInv := r.artInv }))

structure RoadConditionRow where
  crashId : Int := 0
  speedLimit : Option Int := none
  roadType : Option String := none
deriving DecidableEq

def roadConditionDim (l : List Crash) : List RoadConditionRow :=
  dropDups (l.map (fun r =>
    { crashId := r.crashId, speedLimit := r.speedLimit, roadType := r.roadType }))

structure CrashTypeRow where
  crashId : Int := 0
  crashType : Option String := none
  fatalities : Option Int := none
deriving DecidableEq

def crashTypeDim (l : List Crash) : List CrashTypeRow :=
  dropDups (l.map (fun r =>
    { crashId := r.crashId, crashType := r.crashType, fatalities := r.fatalities }))

/-! ## Driver dimension and the age backfill (etl.py lines 263-303) -/

structure DriverRow where
  crashId : Int := 0
  roadUser : Option String := none
  gender : Option String := none
  age : Option ℚ := none
  ageGroup : Option String := none
deriving DecidableEq

/-- The ages of the rows of the dimension that are non-null
(`driver_dim[Age]` with NaN skipped, as pandas `median` does). -/
def knownAges (l : List DriverRow) : List ℚ := l.filterMap (fun r => r.age)

/-- The non-null ages of the rows whose `Age Group` equals `g`
(`driver_dim[driver_dim[Age Group] == g][Age]`; a null group never
equals `g`). -/
def groupAges (l : List DriverRow) (g : String) : List ℚ :=
  (l.filter (fun r => r.ageGroup = some g)).filterMap (fun r => r.age)

/-- etl.py lines 277-283: `age_group_mapping`, the per-group median table
built from every distinct non-null group label other than `Unknown` and
`-9`.  A group whose members all have null age gets a null median. -/
def ageGroupMapping (l : List DriverRow) : List (String × Option ℚ) :=
  ((dropDups (l.filterMap (fun r => r.ageGroup))).filter
      (fun g => g ≠ "Unknown" ∧ g ≠ "-9")).map
    (fun g => (g, median (groupAges l g)))

/-- etl.py lines 286-289: `get_median_age`.  A null, `Unknown` or `-9`
group falls back to the overall median of the (still unfilled) Age
column; otherwise the group's entry of `age_group_mapping` is used, with
the overall median as the `dict.get` default. -/
def getMedianAge (l : List DriverRow) (ag : Option String) : Option ℚ :=
  match ag with
  | none => median (knownAges l)
  | some g =>
    if g = "Unknown" ∨ g = "-9" then median (knownAges l)
    else
      match (ageGroupMapping l).find? (fun e => e.1 = g) with
      | some e => e.2
      | none => median (knownAges l)

/-- etl.py line 292: fill the null ages from the age-group mapping.  The
right-hand side is evaluated against the unmodified table, so every
median used here is computed over the original content. -/
def fillStep1 (l : List DriverRow) : List DriverRow :=
  l.map (fun r => if r.age.isNone then { r with age := getMedianAge l r.ageGroup } else r)

/-- etl.py lines 294-296: any age still null after the group fill is
replaced by `driver_dim[Age].median()` — recomputed on the half-updated
table after the group fills were written. -/
def fillAges (l : List DriverRow) : List DriverRow :=
  let s1 := fillStep1 l
  let om := median (knownAges s1)
  s1.map (fun r => if r.age.isNone then { r with age := om } else r)

/-- etl.py line 273: the whole repair block only runs when some age is
null. -/
def driverFix (l : List DriverRow) : List DriverRow :=
  if l.any (fun r => r.age.isNone) then fillAges l else l

/-- Driver dimension: projection of the filtered fatality rows, age
repair, then `drop_duplicates`. -/
def driverDim (fats : List Fatality) : List DriverRow :=
  dropDups (driverFix (fats.map (fun f =>
    { crashId := f.crashId, roadUser := f.roadUser, gender := f.gender,
      age := f.age, ageGroup := f.ageGroup })))

/-! ## Time dimension (etl.py lines 188-207 and 305-322) -/

/-- etl.py line 189: the standardized `year-month-01` date string
(`Year.astype(str) + '-' + Month.astype(str).str.zfill(2) + '-01'`). -/
def dateOf (y : Int) (m : Nat) : String :=
  toString y ++ "-" ++ zfill 2 (toString m) ++ "-01"

/-- etl.py lines 199-207: time-string standardization — strip colons,
left-pad to four digits, reinsert the colon.  Null becomes the string
nan first (`astype(str)`). -/
def timeStd (t : Option String) : String :=
  let u := zfill 4 (String.mk ((t.getD "nan").data.filter (fun c => c ≠ ':')))
  (u.take 2) ++ ":" ++ ((u.drop 2).take 2)

structure TimeRow where
  crashId : Int := 0
  month : Nat := 1
  year : Int := 2001
  dayweek : Option String := none
  time : String := ""
  dayOfWeek : Option String := none
  timeOfDay : Option String := none
  christmasPeriod : Option String := none
  easterPeriod : Option String := none
  date : String := ""
deriving DecidableEq

def timeDim (l : List Crash) : List TimeRow :=
  dropDups (l.map (fun r =>
    { crashId := r.crashId, month := r.month, year := r.year,
      dayweek := r.dayweek, time := timeStd r.time, dayOfWeek := r.dayOfWeek,
      timeOfDay := r.timeOfDay, christmasPeriod := r.christmasPeriod,
      easterPeriod := r.easterPeriod, date := dateOf r.year r.month }))

/-! ## Season dimension (etl.py lines 476-531) -/

/-- etl.py line 527: `Season_ID = Year.astype(str) + '_' + Quarter.astype(str)`. -/
def seasonIdOf (y : Int) (m : Nat) : String :=
  toString y ++ "_" ++ toString (quarterOf m)

structure SeasonRow where
  year : Int := 2001
  month : Nat := 1
  season : String := ""
  quarter : Int := 1
  isHolidaySeason : Nat := 0
  isSchoolHoliday : Nat := 0
  tourismSeason : String := ""
  date : String := ""
  seasonId : String := ""
deriving DecidableEq

/-- One season row built from a distinct (year, month) pair
(etl.py lines 484-521 plus the `Season_ID` column of line 527). -/
def mkSeasonRow (y : Int) (m : Nat) : SeasonRow :=
  { year := y, month := m,
    season := getSeason (some (m : Int)),
    quarter := quarterOf m,
    isHolidaySeason := if m = 11 ∨ m = 12 ∨ m = 1 then 1 else 0,
    isSchoolHoliday := if m = 1 ∨ m = 4 ∨ m = 7 ∨ m = 9 ∨ m = 10 then 1 else 0,
    tourismSeason :=
      if m = 12 ∨ m = 1 ∨ m = 2 then "Peak"
      else if m = 6 ∨ m = 7 then "Secondary Peak"
      else "Off Peak",
    date := dateOf y m,
    seasonId := seasonIdOf y m }

/-- Season dimension: the distinct (Year, Month) pairs of the filtered
crash table, in first-occurrence order, turned into season rows. -/
def seasonDim (l : List Crash) : List SeasonRow :=
  (dropDups (l.map (fun r => (r.year, r.month)))).map (fun p => mkSeasonRow p.1 p.2)

/-! ## Remoteness-area fuzzy matching (etl.py lines 333-407) -/

/-- One parsed row of the remoteness population reference
(etl.py lines 104-160); `Remoteness_Area` is the synthesized
`category Australia (state)` name and the parsed population is never
null. -/
structure RemRow where
  state : String := ""
  category : String := ""
  area : String := ""
  population : ℚ := 0
deriving DecidableEq

/-- The matching loop of etl.py lines 345-362.  For each reference row in
iteration order: an exact name match or a reference-name-inside-area-name
substring match ends the scan at once (`break`); a match of both category
and state tokens only records the row and keeps scanning, so a later such
match overwrites it. -/
def findBestMatch (area : String) : List RemRow → Option RemRow → Option RemRow
  | [], best => best
  | r :: rest, best =>
    if area = r.area then some r
    else if containsStr area r.area then some r
    else if containsStr area r.category && containsStr area r.state then
      findBestMatch area rest (some r)
    else findBestMatch area rest best

/-- The eight jurisdiction codes (etl.py line 117). -/
def statesList : List String := ["NSW", "Vic", "Qld", "SA", "WA", "Tas", "NT", "ACT"]

/-- etl.py lines 372-377: first jurisdiction code occurring inside the
area name, defaulting to Unknown. -/
def detectState (area : String) : String :=
  (statesList.find? (fun s => containsStr area s)).getD "Unknown"

structure PopRow where
  area : String := ""
  state : String := ""
  population : Option ℚ := none
  dataSource : String := ""
deriving DecidableEq

/-- Population dimension (etl.py lines 329-390): one entry per distinct
non-null remoteness-area string of the filtered crash data, carrying the
fuzzy-matched reference population or a null `Derived` placeholder. -/
def populationDim (crashes : List Crash) (refs : List RemRow) : List PopRow :=
  (dropDups (crashes.filterMap (fun r => r.remotenessArea))).map (fun area =>
    let m := findBestMatch area refs none
    { area := area, state := detectState area,
      population := m.map (fun r => r.population),
      dataSource := if (m.map (fun r => r.population)).isSome
                    then "Reference Data" else "Derived" })

/-! ## LGA reference matching (etl.py lines 53-102 and 409-441) -/

structure LgaRefRow where
  code : String := ""
  name : String := ""
  population : ℚ := 0
deriving DecidableEq

structure LgaRow where
  name : String := ""
  population : Option ℚ := none
  dataSource : String := ""
deriving DecidableEq

/-- LGA dimension (etl.py lines 412-432): for each distinct non-null,
non-Unknown LGA string of the crash data, the first reference row whose
name contains it; containment modelled as plain substring (the source
uses `Series.str.contains`). -/
def lgaDim (crashes : List Crash) (refs : List LgaRefRow) : List LgaRow :=
  ((dropDups (crashes.filterMap (fun r => r.lgaName))).filter
      (fun s => s ≠ "Unknown")).map (fun lga =>
    match refs.find? (fun ref => containsStr ref.name lga) with
    | some ref =>
      { name := lga, population := some ref.population, dataSource := "Reference Data" }
    | none =>
      { name := lga, population := none, dataSource := "Derived" })

/-! ## etl.py fact table (lines 533-580): monthly aggregates and season merge -/

/-- etl.py line 545: the `Year-Month` grouping key,
`Year.astype(str) + '-' + Month.astype(str).str.zfill(2)`. -/
def ymKey (y : Int) (m : Nat) : String :=
  toString y ++ "-" ++ zfill 2 (toString m)

/-- etl.py lines 548-551: monthly crash count and fatality sum grouped by
the `Year-Month` key (pandas `sum` skips nulls, hence `getD 0`). -/
def monthlyCounts (l : List Crash) : List (String × Nat × Int) :=
  groupAgg (fun r => ymKey r.year r.month) (fun r => r.fatalities.getD 0) l

/-- etl.py lines 566-571: season lookup by (Year, Month). -/
def seasonLookup (sd : List SeasonRow) (y : Int) (m : Nat) : Option SeasonRow :=
  sd.find? (fun s => s.year = y ∧ s.month = m)

structure FactE where
  crashId : Int := 0
  state : String := ""
  fatalities : Option Int := none
  year : Int := 2001
  month : Nat := 1
  date : String := ""
  monthlyCrashCount : Option Nat := none
  monthlyFatalityCount : Option Int := none
  season : Option String := none
  seasonIdCol : Option String := none
deriving DecidableEq

/-- The etl.py fact table: crash-level projection, left-merge of the
monthly aggregates on the row's own `Year-Month` key, left-merge of the
season columns on (Year, Month), and a final `drop_duplicates`.
Crash ids are unique in the source (one row per crash), so merging the
`Year-Month` column back via `Crash ID` attaches each row's own key. -/
def factTableEtl (l : List Crash) : List FactE :=
  let mc := monthlyCounts l
  let sd := seasonDim l
  dropDups (l.map (fun r =>
    { crashId := r.crashId, state := r.state, fatalities := r.fatalities,
      year := r.year, month := r.month, date := dateOf r.year r.month,
      monthlyCrashCount := (lookupAgg mc (ymKey r.year r.month)).map (fun p => p.1),
      monthlyFatalityCount := (lookupAgg mc (ymKey r.year r.month)).map (fun p => p.2),
      season := (seasonLookup sd r.year r.month).map (fun s => s.season),
      seasonIdCol := (seasonLookup sd r.year r.month).map (fun s => s.seasonId) }))

/-! ## creat_fact_table.py -/

/-- creat_fact_table.py line 30: `crash_id.astype(str).str[:4].astype(int)`.
Python `int(...)` raises on a string that is not an optionally signed
run of digits, which aborts the whole build; that is modelled by
`Except`. -/
def yearFromCrashId (cid : String) : Except String Int :=
  match strToInt (cid.take 4) with
  | some n => Except.ok n
  | none => Except.error "invalid literal for int"

/-- creat_fact_table.py lines 31-34: the fixed 8-entry jurisdiction map
applied to the 5th character; an absent or unmapped character yields
null. -/
def stateFromCrashId (cid : String) : Option String :=
  match cid.data[4]? with
  | some c =>
    if c = '1' then some "NSW"
    else if c = '2' then some "VIC"
    else if c = '3' then some "QLD"
    else if c = '4' then some "SA"
    else if c = '5' then some "WA"
    else if c = '6' then some "TAS"
    else if c = '7' then some "NT"
    else if c = '8' then some "ACT"
    else none
  | none => none

/-- Year decoding over a whole id column: the first undecodable id makes
the run fail (the `astype(int)` exception propagates to the top-level
handler of `create_fact_table`, which returns failure). -/
def decodeYears (ids : List String) : Except String (List Int) :=
  ids.mapM yearFromCrashId

/-- creat_fact_table.py lines 40-41: `time_id` is the year string
concatenated with the zero-padded month string, cast back to an
integer. -/
def timeId (y : Int) (m : Nat) : Option Int :=
  strToInt (toString y ++ zfill 2 (toString m))

/-- Helper for `firstRowPerYear`: keep a row only when its year was not
seen before. -/
def firstRowPerYearAux (seen : List Int) : List SeasonRow → List SeasonRow
  | [] => []
  | s :: t =>
    if s.year ∈ seen then firstRowPerYearAux seen t
    else s :: firstRowPerYearAux (s.year :: seen) t

/-- `season_df.drop_duplicates(subset=[year])`: first season row per
year. -/
def firstRowPerYear (l : List SeasonRow) : List SeasonRow := firstRowPerYearAux [] l

/-- The driver table as `create_fact_table` reads it: rows keyed by
`crash_id` with a (non-null) `driver_id` surrogate column, so the pandas
`count` of `driver_id` per group equals the group size. -/
structure DrvRow where
  crashId : Int := 0
  driverId : Int := 0
deriving DecidableEq

/-- creat_fact_table.py lines 55-58: per-crash driver count via
`groupby(crash_id).count()`, left-merged and `fillna(0)`. -/
def driverCountOf (drivers : List DrvRow) (cid : Int) : Nat :=
  ((lookupAgg (groupAgg (fun d => d.crashId) (fun _ => 0) drivers) cid).map
    (fun p => p.1)).getD 0

structure LocIdRow where
  locationId : Int := 0
  state : String := ""
deriving DecidableEq

structure PopIdRow where
  populationId : Int := 0
  state : String := ""
  year : Int := 2001
deriving DecidableEq

/-- The final fact row of creat_fact_table.py (column order of lines
88-92). -/
structure FactFinal where
  factId : Nat := 0
  crashId : Int := 0
  timeId : Option Int := none
  locationId : Option Int := none
  roadConditionId : Int := 0
  seasonId : Option String := none
  vehicleId : Int := 0
  driverCount : Nat := 0
  populationId : Option Int := none
  lgaId : Int := 0
  fatalities : Option Int := none
  yearlyCrashCount : Option Nat := none
  yearlyFatalityCount : Option Int := none
  crashDate : String := ""
  year : Int := 2001
  state : Option String := none
deriving DecidableEq

/-- creat_fact_table.py line 62: left merge with the location table on
`state`; every matching location row produces an output row, no match
leaves a null key (a null state matches nothing, as NaN merge keys do). -/
def mergeLocation (facts : List FactFinal) (locs : List LocIdRow) : List FactFinal :=
  facts.flatMap (fun f =>
    let ms := locs.filter (fun l => f.state = some l.state)
    if ms.isEmpty then [f]
    else ms.map (fun l => { f with locationId := some l.locationId }))

/-- creat_fact_table.py line 66: left merge with the population table on
(`state`, `year`). -/
def mergePopulation (facts : List FactFinal) (pops : List PopIdRow) : List FactFinal :=
  facts.flatMap (fun f =>
    let ms := pops.filter (fun p => f.state = some p.state ∧ f.year = p.year)
    if ms.isEmpty then [f]
    else ms.map (fun p => { f with populationId := some p.populationId }))

/-- creat_fact_table.py lines 73-81: yearly crash count and fatality sum
grouped over the fact rows as they stand at that stage, broadcast back
by year. -/
def yearlyEnrich (facts : List FactFinal) : List FactFinal :=
  let ys := groupAgg (fun f => f.year) (fun f => f.fatalities.getD 0) facts
  facts.map (fun f =>
    { f with yearlyCrashCount := (lookupAgg ys f.year).map (fun p => p.1),
             yearlyFatalityCount := (lookupAgg ys f.year).map (fun p => p.2) })

/-- Decode one crash id into (row, year, state); the year decode can
fail (creat_fact_table.py lines 30-34). -/
def decodeRow (c : CrashTypeRow) : Except String (CrashTypeRow × Int × Option String) :=
  match yearFromCrashId (toString c.crashId) with
  | Except.error e => Except.error e
  | Except.ok y => Except.ok (c, y, stateFromCrashId (toString c.crashId))

/-- creat_fact_table.py lines 29 and 36-58 and 68-70 and 83-85: attach
`fact_id` (dense from 1), the per-year time/season keys, the crash-id
stand-in keys, the driver count and the coarse `crash_date`. -/
def withKeysOf (base : List (CrashTypeRow × Int × Option String))
    (drivers : List DrvRow) (seasonRef : List SeasonRow) : List FactFinal :=
  (List.enumFrom 1 base).map (fun e =>
    let c := e.2.1
    let y := e.2.2.1
    let st := e.2.2.2
    let sr := seasonRef.find? (fun s => s.year = y)
    { factId := e.1, crashId := c.crashId,
      timeId := sr.bind (fun s => timeId s.year s.month),
      seasonId := sr.map (fun s => s.seasonId),
      roadConditionId := c.crashId, vehicleId := c.crashId, lgaId := c.crashId,
      driverCount := driverCountOf drivers c.crashId,
      fatalities := c.fatalities,
      crashDate := toString y ++ "-01-01",
      year := y, state := st : FactFinal })

/-- The fact-table build of creat_fact_table.py lines 27-93: decode
year/state from the crash id, attach `fact_id`, time/season keys,
the crash-id stand-in keys, the driver count, the location and
population keys, the yearly aggregates and the coarse `crash_date`.
An undecodable year aborts the build with an error. -/
def createFactStage (ct : List CrashTypeRow) (drivers : List DrvRow)
    (seasons : List SeasonRow) (locs : List LocIdRow) (pops : List PopIdRow) :
    Except String (List FactFinal) :=
  match ct.mapM decodeRow with
  | Except.error e => Except.error e
  | Except.ok base =>
    Except.ok (yearlyEnrich (mergePopulation
      (mergeLocation (withKeysOf base drivers (firstRowPerYear seasons)) locs) pops))

/-! ## Vehicle classification (association_mining.py lines 20-24) -/

/-- The chained conditional expression assigning one vehicle category
per crash from the involvement flags, in the fixed priority order
Articulated Truck, Heavy Rigid Truck, Bus, Other; the flag columns are
nullable, and only the value 1 counts as involvement. -/
def vehicleType (art hrt bus : Option Int) : String :=
  if art = some 1 then "Articulated Truck"
  else if hrt = some 1 then "Heavy Rigid Truck"
  else if bus = some 1 then "Bus"
  else "Other"

/-! ## The composed ETL run (etl.py lines 172-580) -/

/-- All tables the etl.py run writes, as one pure function of the loaded
inputs: the filter stage, the seven dimension tables and the etl fact
table. -/
def etlOutputs (rawCrashes : List RawCrash) (rawFats : List RawFatality)
    (remRefs : List RemRow) (lgaRefs : List LgaRefRow) :
    List LocationRow × List VehicleRow × List RoadConditionRow × List DriverRow ×
    List TimeRow × List PopRow × List LgaRow × List CrashTypeRow ×
    List SeasonRow × List FactE :=
  let crashes := filterCrashes rawCrashes
  let fats := filterFatalities crashes rawFats
  (locationDim crashes, vehicleDim crashes, roadConditionDim crashes,
   driverDim fats, timeDim crashes, populationDim crashes remRefs,
   lgaDim crashes lgaRefs, crashTypeDim crashes, seasonDim crashes,
   factTableEtl crashes)

/-- The whole pipeline: the etl.py outputs followed by the
creat_fact_table.py build on the produced dimension tables. -/
def pipelineOutputs (rawCrashes : List RawCrash) (rawFats : List RawFatality)
    (remRefs : List RemRow) (lgaRefs : List LgaRefRow)
    (drivers : List DrvRow) (locs : List LocIdRow) (pops : List PopIdRow) :
    (List LocationRow × List VehicleRow × List RoadConditionRow × List DriverRow ×
     List TimeRow × List PopRow × List LgaRow × List CrashTypeRow ×
     List SeasonRow × List FactE) × Except String (List FactFinal) :=
  let outs := etlOutputs rawCrashes rawFats remRefs lgaRefs
  let crashes := filterCrashes rawCrashes
  (outs, createFactStage (crashTypeDim crashes) drivers (seasonDim crashes) locs pops)

/-! # Claim theorems -/

/-- C10: the season-assignment function is total with a catch-all
default: every month value outside the Summer set 12/1/2, the Autumn set
3/4/5 and the Winter set 6/7/8 — including null, 0 or 13 — is mapped to
Spring, so season rows built from such months carry the Spring label
rather than being rejected. -/
theorem getSeason_spring_catchall (m : Option Int)
    (h12 : m ≠ some 12) (h1 : m ≠ some 1) (h2 : m ≠ some 2)
    (h3 : m ≠ some 3) (h4 : m ≠ some 4) (h5 : m ≠ some 5)
    (h6 : m ≠ some 6) (h7 : m ≠ some 7) (h8 : m ≠ some 8) :
    getSeason m = "Spring" := by
  unfold getSeason
  rw [if_neg (by simp [h12, h1, h2]), if_neg (by simp [h3, h4, h5]),
      if_neg (by simp [h6, h7, h8])]

theorem getSeason_spring_catchall_witness :
    getSeason none = "Spring" ∧ getSeason (some 0) = "Spring" ∧
    getSeason (some 13) = "Spring" :=
  ⟨getSeason_spring_catchall none (by decide) (by decide) (by decide) (by decide)
      (by decide) (by decide) (by decide) (by decide) (by decide),
   getSeason_spring_catchall (some 0) (by decide) (by decide) (by decide) (by decide)
      (by decide) (by decide) (by decide) (by decide) (by decide),
   getSeason_spring_catchall (some 13) (by decide) (by decide) (by decide) (by decide)
      (by decide) (by decide) (by decide) (by decide) (by decide)⟩

/-- C8: vehicle classification assigns exactly one of the four
categories by the fixed priority order Articulated Truck, then Heavy
Rigid Truck, then Bus, then Other, the first involvement flag equal to 1
winning; in particular a record with both Articulated Truck and Bus
involvement is classified as Articulated Truck. -/
theorem vehicleType_priority (art hrt bus : Option Int) :
    (art = some 1 → vehicleType art hrt bus = "Articulated Truck")
    ∧ (art ≠ some 1 → hrt = some 1 → vehicleType art hrt bus = "Heavy Rigid Truck")
    ∧ (art ≠ some 1 → hrt ≠ some 1 → bus = some 1 → vehicleType art hrt bus = "Bus")
    ∧ (art ≠ some 1 → hrt ≠ some 1 → bus ≠ some 1 → vehicleType art hrt bus = "Other")
    ∧ (art = some 1 → bus = some 1 → vehicleType art hrt bus = "Articulated Truck")
    ∧ (vehicleType art hrt bus = "Articulated Truck"
       ∨ vehicleType art hrt bus = "Heavy Rigid Truck"
       ∨ vehicleType art hrt bus = "Bus"
       ∨ vehicleType art hrt bus = "Other") := by
  refine ⟨fun ha => by simp [vehicleType, ha],
          fun ha hh => by simp [vehicleType, ha, hh],
          fun ha hh hb => by simp [vehicleType, ha, hh, hb],
          fun ha hh hb => by simp [vehicleType, ha, hh, hb], ?_, ?_⟩
  · exact fun ha _ => by simp [vehicleType, ha]
  · unfold vehicleType
    by_cases ha : art = some 1
    · simp [ha]
    · by_cases hh : hrt = some 1
      · simp [ha, hh]
      · by_cases hb : bus = some 1 <;> simp [ha, hh, hb]

theorem vehicleType_priority_witness :
    vehicleType (some 1) (some 0) (some 1) = "Articulated Truck" :=
  (vehicleType_priority (some 1) (some 0) (some 1)).2.2.2.2.1 rfl rfl

/-- C9: the pipeline is deterministic — the whole transformation is a
pure function of the loaded inputs, so two runs on identical inputs
produce identical dimension tables and fact tables, every derived
column, surrogate key and aggregate included. -/
theorem pipeline_deterministic (c₁ c₂ : List RawCrash) (f₁ f₂ : List RawFatality)
    (r₁ r₂ : List RemRow) (g₁ g₂ : List LgaRefRow) (d₁ d₂ : List DrvRow)
    (l₁ l₂ : List LocIdRow) (p₁ p₂ : List PopIdRow)
    (hc : c₁ = c₂) (hf : f₁ = f₂) (hr : r₁ = r₂) (hg : g₁ = g₂)
    (hd : d₁ = d₂) (hl : l₁ = l₂) (hp : p₁ = p₂) :
    pipelineOutputs c₁ f₁ r₁ g₁ d₁ l₁ p₁ = pipelineOutputs c₂ f₂ r₂ g₂ d₂ l₂ p₂ := by
  subst hc hf hr hg hd hl hp
  rfl

theorem pipeline_deterministic_witness :
    pipelineOutputs [{ crashId := 20211234, year := some 2021 }] [] [] [] [] [] [] =
    pipelineOutputs [{ crashId := 20211234, year := some 2021 }] [] [] [] [] [] [] :=
  pipeline_deterministic _ _ _ _ _ _ _ _ _ _ _ _ _ _ rfl rfl rfl rfl rfl rfl rfl

/-- C6 (amended): the Key Assigner degrades locally for the state only —
a 5th character outside the fixed 8-entry jurisdiction table yields a
null state, not an error; but an undecodable year does NOT degrade to
null: the `astype(int)` year decode raises, and any ok result of the
column decode can only contain ids whose leading four characters parse
as an integer. -/
theorem keyAssigner_degrade :
    (∀ cid : String, ∀ c : Char, cid.data[4]? = some c →
      c ≠ '1' → c ≠ '2' → c ≠ '3' → c ≠ '4' →
      c ≠ '5' → c ≠ '6' → c ≠ '7' → c ≠ '8' →
      stateFromCrashId cid = none)
    ∧ (∀ cid : String, strToInt (cid.take 4) = none →
        yearFromCrashId cid = Except.error "invalid literal for int")
    ∧ (∀ ids : List String, ∀ ys : List Int, decodeYears ids = Except.ok ys →
        ∀ cid ∈ ids, strToInt (cid.take 4) ≠ none) := by
  refine ⟨?_, ?_, ?_⟩
  · intro cid c hc h1 h2 h3 h4 h5 h6 h7 h8
    unfold stateFromCrashId
    rw [hc]
    simp [h1, h2, h3, h4, h5, h6, h7, h8]
  · intro cid h
    unfold yearFromCrashId
    rw [h]
  · intro ids
    induction ids with
    | nil => intro ys _ cid hm; exact absurd hm (List.not_mem_nil cid)
    | cons x t ih =>
      intro ys hok cid hm
      rw [decodeYears, List.mapM_cons] at hok
      cases hx : yearFromCrashId x with
      | error e =>
        rw [hx] at hok
        simp only [Bind.bind, Except.bind] at hok
        exact Except.noConfusion hok
      | ok y =>
        rw [hx] at hok
        simp only [Bind.bind, Except.bind] at hok
        cases ht : t.mapM yearFromCrashId with
        | error e =>
          rw [ht] at hok
          exact Except.noConfusion hok
        | ok ys' =>
          rcases List.mem_cons.mp hm with hcx | hct
          · subst hcx
            intro hnone
            unfold yearFromCrashId at hx
            rw [hnone] at hx
            exact Except.noConfusion hx
          · exact ih ys' (by rw [decodeYears, ht]) cid hct

theorem keyAssigner_degrade_witness :
    stateFromCrashId "20219067" = none ∧
    yearFromCrashId "nan" = Except.error "invalid literal for int" :=
  ⟨(keyAssigner_degrade.1 "20219067" '9' rfl (by decide) (by decide) (by decide)
      (by decide) (by decide) (by decide) (by decide) (by decide)),
   (keyAssigner_degrade.2.1 "nan" rfl)⟩

/-- C6 counterexample: the claim says an undecodable year degrades to a
null year without failing the run; in fact one undecodable crash id
(here the string nan that a null id becomes under `astype(str)`) turns
the whole column decode into an error — the very same id list without it
decodes fine. -/
theorem keyAssigner_year_abort_cex :
    decodeYears ["20211234", "nan"] = Except.error "invalid literal for int"
    ∧ decodeYears ["20211234"] = Except.ok [2021] := ⟨rfl, rfl⟩

/-- The last reference row (in iteration order) whose category and state
tokens both occur inside the area name — the value the loosest fallback
of the matching loop leaves behind. -/
def lastCatState (area : String) (l : List RemRow) : Option RemRow :=
  l.foldl (fun acc r =>
    if containsStr area r.category && containsStr area r.state then some r else acc) none

theorem foldl_overwrite (p : RemRow → Bool) (l : List RemRow) (acc : Option RemRow) :
    l.foldl (fun a r => if p r then some r else a) acc =
      match l.foldl (fun a r => if p r then some r else a) none with
      | some u => some u
      | none => acc := by
  induction l generalizing acc with
  | nil => simp
  | cons x t ih =>
    simp only [List.foldl_cons]
    by_cases hp : p x
    · rw [if_pos hp, if_pos hp, ih (some x)]
      cases h : t.foldl (fun a r => if p r then some r else a) none <;> simp
    · rw [if_neg hp, if_neg hp, ih acc]

theorem findBestMatch_eq (area : String) (refs : List RemRow) (best : Option RemRow) :
    findBestMatch area refs best =
      match refs.find? (fun r => area = r.area || containsStr area r.area) with
      | some r => some r
      | none =>
        match lastCatState area refs with
        | some u => some u
        | none => best := by
  induction refs generalizing best with
  | nil => simp [findBestMatch, lastCatState]
  | cons r rest ih =>
    by_cases hx : area = r.area
    · rw [findBestMatch, if_pos hx, List.find?_cons_of_pos _ (by simp [hx])]
    · by_cases hs : containsStr area r.area
      · rw [findBestMatch, if_neg hx, if_pos hs, List.find?_cons_of_pos _ (by simp [hs])]
      · rw [findBestMatch, if_neg hx, if_neg hs,
            List.find?_cons_of_neg _ (by simp [hx, hs])]
        by_cases hc : containsStr area r.category && containsStr area r.state
        · rw [if_pos hc, ih (some r)]
          have hl : lastCatState area (r :: rest) =
              match lastCatState area rest with
              | some u => some u
              | none => some r := by
            unfold lastCatState
            rw [List.foldl_cons, if_pos hc]
            exact foldl_overwrite _ rest (some r)
          rw [hl]
          cases hfind : rest.find? (fun r => area = r.area || containsStr area r.area) <;>
            cases hlast : lastCatState area rest <;> simp
        · rw [if_neg hc, ih best]
          have hl : lastCatState area (r :: rest) = lastCatState area rest := by
            unfold lastCatState
            rw [List.foldl_cons, if_neg hc]
          rw [hl]

/-- C1 (amended): for each crash-data area name the reference rows are
scanned in iteration order; within one row the strategies are tried in
the order exact, substring, category-plus-jurisdiction; the scan stops
at the first row matching exactly or by substring, while a
category-plus-jurisdiction match only records the row and scanning
continues (the last such row winning when no exact or substring match
exists anywhere).  So an exact match beats the fallbacks at the same or
later rows, but an earlier reference row matching by substring wins over
a later exact match. -/
theorem remoteness_match_order (area : String) (refs : List RemRow) :
    findBestMatch area refs none =
      match refs.find? (fun r => area = r.area || containsStr area r.area) with
      | some r => some r
      | none => lastCatState area refs := by
  rw [findBestMatch_eq area refs none]
  cases hfind : refs.find? (fun r => area = r.area || containsStr area r.area) <;>
    cases hlast : lastCatState area refs <;> simp

/-- C1 counterexample: the area name Very Remote Australia (NSW) has an
exact reference match (second row) but the scan stops at the first row,
whose name Remote Australia (NSW) is a proper substring of the area
name, so the substring match wins although an exact match exists —
contradicting first-hit-wins-with-exact-preferred regardless of
iteration order.  The row order used is the one the reference parser
itself produces (the category list puts Remote before Very Remote). -/
theorem remoteness_exact_loses_cex :
    findBestMatch "Very Remote Australia (NSW)"
      [{ state := "NSW", category := "Remote", area := "Remote Australia (NSW)",
         population := 100 },
       { state := "NSW", category := "Very Remote", area := "Very Remote Australia (NSW)",
         population := 50 }] none =
      some { state := "NSW", category := "Remote", area := "Remote Australia (NSW)",
             population := 100 }
    ∧ "Very Remote Australia (NSW)" =
        ({ state := "NSW", category := "Very Remote",
           area := "Very Remote Australia (NSW)", population := 50 } : RemRow).area
    ∧ "Very Remote Australia (NSW)" ≠
        ({ state := "NSW", category := "Remote", area := "Remote Australia (NSW)",
           population := 100 } : RemRow).area := by
  refine ⟨by decide, rfl, by decide⟩

theorem timeId_val_dom : ∀ a : Nat, a < 23 → ∀ b : Nat, b < 12 →
    timeId (2001 + (a : Int)) (1 + b) = some (100 * (2001 + (a : Int)) + (1 + (b : Int))) := by
  decide

theorem timeId_value (y : Int) (m : Nat) (hy1 : 2001 ≤ y) (hy2 : y ≤ 2023)
    (hm1 : 1 ≤ m) (hm2 : m ≤ 12) : timeId y m = some (100 * y + m) := by
  have ha : ((y - 2001).toNat : Int) = y - 2001 := Int.toNat_of_nonneg (by omega)
  have h23 : (y - 2001).toNat < 23 := by omega
  have key := timeId_val_dom ((y - 2001).toNat) h23 (m - 1) (by omega)
  rw [show (2001 + ((y - 2001).toNat : Int)) = y by omega] at key
  rw [show 1 + (m - 1) = m from by omega] at key
  rw [key]
  congr 1
  omega

theorem quarter_toString_inj : ∀ a : Nat, a < 12 → ∀ b : Nat, b < 12 →
    toString (quarterOf (1 + a)) = toString (quarterOf (1 + b)) →
    quarterOf (1 + a) = quarterOf (1 + b) := by
  decide

/-- C3 (amended): `time_id` is indeed the integer reading of the year
string concatenated with the zero-padded month string, and it is
collision-free per (year, month) over the filtered window; but
`season_id` is the year string joined to the QUARTER string with an
underscore, so within one year two season rows share a `season_id`
exactly when their months fall in the same quarter — (year, month) being
the dedup key does not make `season_id` injective. -/
theorem seasonId_timeId_amended (y : Int) (m m' : Nat) (hy1 : 2001 ≤ y) (hy2 : y ≤ 2023)
    (hm1 : 1 ≤ m) (hm2 : m ≤ 12) (hm1' : 1 ≤ m') (hm2' : m' ≤ 12) :
    timeId y m = some (100 * y + m)
    ∧ (∀ y₂ : Int, ∀ m₂ : Nat, 2001 ≤ y₂ → y₂ ≤ 2023 → 1 ≤ m₂ → m₂ ≤ 12 →
        (timeId y m = timeId y₂ m₂ ↔ (y = y₂ ∧ m = m₂)))
    ∧ (mkSeasonRow y m).seasonId = toString y ++ "_" ++ toString (quarterOf m)
    ∧ (seasonIdOf y m = seasonIdOf y m' ↔ quarterOf m = quarterOf m') := by
  refine ⟨timeId_value y m hy1 hy2 hm1 hm2, ?_, rfl, ?_⟩
  · intro y₂ m₂ hy1₂ hy2₂ hm1₂ hm2₂
    rw [timeId_value y m hy1 hy2 hm1 hm2, timeId_value y₂ m₂ hy1₂ hy2₂ hm1₂ hm2₂]
    constructor
    · intro h
      have h' := Option.some.inj h
      constructor
      · omega
      · omega
    · rintro ⟨rfl, rfl⟩
      rfl
  · constructor
    · intro h
      unfold seasonIdOf at h
      have hd := congrArg String.data h
      simp only [String.data_append] at hd
      rw [List.append_assoc, List.append_assoc] at hd
      have h2 := List.append_cancel_left hd
      have h3 := List.append_cancel_left h2
      have h4 : toString (quarterOf m) = toString (quarterOf m') := String.ext h3
      have e1 : m = 1 + (m - 1) := by omega
      have e2 : m' = 1 + (m' - 1) := by omega
      rw [e1, e2] at h4 ⊢
      exact quarter_toString_inj (m - 1) (by omega) (m' - 1) (by omega) h4
    · intro h
      unfold seasonIdOf
      rw [h]

theorem seasonId_timeId_amended_witness :
    timeId 2010 3 = some (100 * 2010 + 3)
    ∧ (mkSeasonRow 2010 3).seasonId = toString (2010 : Int) ++ "_" ++
        toString (quarterOf 3)
    ∧ (seasonIdOf 2010 3 = seasonIdOf 2010 2 ↔ quarterOf 3 = quarterOf 2) :=
  ⟨(seasonId_timeId_amended 2010 3 2 (by decide) (by decide) (by decide) (by decide)
      (by decide) (by decide)).1,
   (seasonId_timeId_amended 2010 3 2 (by decide) (by decide) (by decide) (by decide)
      (by decide) (by decide)).2.2.1,
   (seasonId_timeId_amended 2010 3 2 (by decide) (by decide) (by decide) (by decide)
      (by decide) (by decide)).2.2.2⟩

/-- C3 counterexample: the season rows for January 2010 and February
2010 are distinct dimension rows (distinct dedup keys) yet carry the
same `Season_ID` 2010_1, and that id is not the concatenation of the
year with the zero-padded month. -/
theorem seasonId_collision_cex :
    (mkSeasonRow 2010 1).seasonId = (mkSeasonRow 2010 2).seasonId
    ∧ mkSeasonRow 2010 1 ≠ mkSeasonRow 2010 2
    ∧ (mkSeasonRow 2010 1).seasonId ≠ toString (2010 : Int) ++ zfill 2 (toString (1 : Nat)) := by
  refine ⟨by decide, by decide, by decide⟩

theorem yearString_inj_dom : ∀ a : Nat, a < 23 → ∀ b : Nat, b < 23 →
    toString ((2001 : Int) + a) = toString ((2001 : Int) + b) → a = b := by
  decide

theorem yearString_len_dom : ∀ a : Nat, a < 23 →
    (toString ((2001 : Int) + a)).data.length = 4 := by
  decide

theorem monthZ_inj_dom : ∀ c : Nat, c < 12 → ∀ d : Nat, d < 12 →
    zfill 2 (toString (1 + c)) = zfill 2 (toString (1 + d)) → c = d := by
  decide

/-- The `Year-Month` string key distinguishes exactly the (year, month)
pairs over the filtered window. -/
theorem ymKey_inj (y₁ y₂ : Int) (m₁ m₂ : Nat)
    (hy1 : 2001 ≤ y₁) (hy2 : y₁ ≤ 2023) (hy1' : 2001 ≤ y₂) (hy2' : y₂ ≤ 2023)
    (hm1 : 1 ≤ m₁) (hm2 : m₁ ≤ 12) (hm1' : 1 ≤ m₂) (hm2' : m₂ ≤ 12) :
    ymKey y₁ m₁ = ymKey y₂ m₂ ↔ (y₁ = y₂ ∧ m₁ = m₂) := by
  constructor
  · intro h
    have ha₁ : ((y₁ - 2001).toNat : Int) = y₁ - 2001 := Int.toNat_of_nonneg (by omega)
    have ha₂ : ((y₂ - 2001).toNat : Int) = y₂ - 2001 := Int.toNat_of_nonneg (by omega)
    have e₁ : y₁ = 2001 + ((y₁ - 2001).toNat : Int) := by omega
    have e₂ : y₂ = 2001 + ((y₂ - 2001).toNat : Int) := by omega
    have f₁ : m₁ = 1 + (m₁ - 1) := by omega
    have f₂ : m₂ = 1 + (m₂ - 1) := by omega
    unfold ymKey at h
    have hd := congrArg String.data h
    simp only [String.data_append] at hd
    rw [List.append_assoc, List.append_assoc] at hd
    have hlen : (toString y₁).data.length = (toString y₂).data.length := by
      rw [e₁, e₂, yearString_len_dom _ (by omega), yearString_len_dom _ (by omega)]
    have hsplit := List.append_inj hd hlen
    have hy : toString y₁ = toString y₂ := String.ext hsplit.1
    have hz : zfill 2 (toString m₁) = zfill 2 (toString m₂) :=
      String.ext (List.append_cancel_left hsplit.2)
    rw [e₁, e₂] at hy
    have hyy := yearString_inj_dom _ (by omega) _ (by omega) hy
    rw [f₁, f₂] at hz
    have hmm := monthZ_inj_dom _ (by omega) _ (by omega) hz
    constructor
    · omega
    · omega
  · rintro ⟨rfl, rfl⟩
    rfl

/-- C2: the aggregate columns are group sizes and group sums over the
already-filtered fact set, broadcast back to every row of the group.
In the etl.py fact table every row's monthly crash count is the number
of filtered crash rows sharing its (year, month) and its monthly
fatality count is their fatality sum (nulls contributing 0); in
creat_fact_table.py, every enriched row's yearly crash count is the
number of fact rows sharing its year and its yearly fatality count is
their fatality sum. -/
theorem factAggregates (l : List Crash)
    (hb : ∀ x ∈ l, 2001 ≤ x.year ∧ x.year ≤ 2023 ∧ 1 ≤ x.month ∧ x.month ≤ 12) :
    (∀ r ∈ factTableEtl l,
        r.monthlyCrashCount = some (l.countP (fun x => x.year = r.year ∧ x.month = r.month))
        ∧ r.monthlyFatalityCount =
            some (((l.filter (fun x => x.year = r.year ∧ x.month = r.month)).map
              (fun x => x.fatalities.getD 0)).sum))
    ∧ (∀ fl : List FactFinal, ∀ g ∈ yearlyEnrich fl,
        g.yearlyCrashCount = some (fl.countP (fun x => x.year = g.year))
        ∧ g.yearlyFatalityCount =
            some (((fl.filter (fun x => x.year = g.year)).map
              (fun x => x.fatalities.getD 0)).sum)) := by
  constructor
  · intro r hr
    simp only [factTableEtl] at hr
    obtain ⟨x, hxl, rfl⟩ := List.mem_map.1 (mem_dropDups.1 hr)
    simp only
    have hcongr : ∀ c ∈ l,
        (decide (ymKey c.year c.month = ymKey x.year x.month)) =
        (decide (c.year = x.year ∧ c.month = x.month)) := by
      intro c hc
      obtain ⟨b1, b2, b3, b4⟩ := hb c hc
      obtain ⟨c1, c2, c3, c4⟩ := hb x hxl
      exact decide_eq_decide.2 (ymKey_inj c.year x.year c.month x.month b1 b2 c1 c2 b3 b4 c3 c4)
    have hfil : l.filter (fun c => ymKey c.year c.month = ymKey x.year x.month) =
        l.filter (fun c => c.year = x.year ∧ c.month = x.month) :=
      List.filter_congr hcongr
    have hcnt : l.countP (fun c => ymKey c.year c.month = ymKey x.year x.month) =
        l.countP (fun c => c.year = x.year ∧ c.month = x.month) := by
      rw [List.countP_eq_length_filter, List.countP_eq_length_filter, hfil]
    have hpos : 0 < l.countP (fun c => ymKey c.year c.month = ymKey x.year x.month) :=
      List.countP_pos_iff.2 ⟨x, hxl, by simp⟩
    rw [monthlyCounts, lookupAgg_groupAgg]
    rw [if_neg (by omega)]
    constructor
    · simp only [Option.map_some']
      rw [hcnt]
    · simp only [Option.map_some']
      rw [hfil]
  · intro fl g hg
    simp only [yearlyEnrich] at hg
    obtain ⟨x, hxl, rfl⟩ := List.mem_map.1 hg
    simp only
    have hpos : 0 < fl.countP (fun c => c.year = x.year) :=
      List.countP_pos_iff.2 ⟨x, hxl, by simp⟩
    rw [lookupAgg_groupAgg]
    rw [if_neg (by omega)]
    exact ⟨rfl, rfl⟩

/-- A synthetic filtered fact set: three crashes in January 2010 and two
in February 2010. -/
def c2demo : List Crash :=
  [{ crashId := 1, year := 2010, month := 1, fatalities := some 1 },
   { crashId := 2, year := 2010, month := 1, fatalities := some 1 },
   { crashId := 3, year := 2010, month := 1, fatalities := some 1 },
   { crashId := 4, year := 2010, month := 2, fatalities := some 1 },
   { crashId := 5, year := 2010, month := 2, fatalities := some 1 }]

/-- The January row of `factTableEtl c2demo` for crash 1. -/
def c2row : FactE :=
  { crashId := 1, state := "", fatalities := some 1, year := 2010, month := 1,
    date := "2010-01-01", monthlyCrashCount := some 3, monthlyFatalityCount := some 3,
    season := some "Summer", seasonIdCol := some "2010_1" }

/-- The same five crashes as fact rows entering the yearly aggregation. -/
def c2fdemo : List FactFinal :=
  [{ crashId := 1, year := 2010, fatalities := some 1 },
   { crashId := 2, year := 2010, fatalities := some 1 },
   { crashId := 3, year := 2010, fatalities := some 1 },
   { crashId := 4, year := 2010, fatalities := some 1 },
   { crashId := 5, year := 2010, fatalities := some 1 }]

/-- The enriched first row of `yearlyEnrich c2fdemo`. -/
def c2grow : FactFinal :=
  { crashId := 1, year := 2010, fatalities := some 1,
    yearlyCrashCount := some 5, yearlyFatalityCount := some 5 }

theorem factAggregates_witness :
    c2row.monthlyCrashCount =
      some (c2demo.countP (fun x => x.year = c2row.year ∧ x.month = c2row.month))
    ∧ c2grow.yearlyCrashCount = some (c2fdemo.countP (fun x => x.year = c2grow.year))
    ∧ c2demo.countP (fun x => x.year = c2row.year ∧ x.month = c2row.month) = 3
    ∧ c2fdemo.countP (fun x => x.year = c2grow.year) = 5 :=
  ⟨((factAggregates c2demo (by decide)).1 c2row (by decide)).1,
   ((factAggregates c2demo (by decide)).2 c2fdemo c2grow (by decide)).1,
   by decide, by decide⟩

theorem driverCountOf_eq (drivers : List DrvRow) (cid : Int) :
    driverCountOf drivers cid = (drivers.filter (fun d => d.crashId = cid)).length := by
  unfold driverCountOf
  rw [lookupAgg_groupAgg]
  by_cases h : drivers.countP (fun d => d.crashId = cid) = 0
  · rw [if_pos h]
    simp only [Option.map_none', Option.getD_none]
    rw [← List.countP_eq_length_filter, h]
  · rw [if_neg h]
    simp only [Option.map_some', Option.getD_some]
    exact List.countP_eq_length_filter _ _

theorem mem_mergeLocation (facts : List FactFinal) (locs : List LocIdRow)
    (g : FactFinal) (hg : g ∈ mergeLocation facts locs) :
    ∃ f ∈ facts, g.driverCount = f.driverCount ∧ g.crashId = f.crashId := by
  unfold mergeLocation at hg
  obtain ⟨f, hf, hgf⟩ := List.mem_flatMap.1 hg
  refine ⟨f, hf, ?_⟩
  simp only at hgf
  by_cases h : (locs.filter (fun l => f.state = some l.state)).isEmpty
  · rw [if_pos h] at hgf
    rcases List.mem_singleton.1 hgf with rfl
    exact ⟨rfl, rfl⟩
  · rw [if_neg h] at hgf
    obtain ⟨l, _, rfl⟩ := List.mem_map.1 hgf
    exact ⟨rfl, rfl⟩

theorem mem_mergePopulation (facts : List FactFinal) (pops : List PopIdRow)
    (g : FactFinal) (hg : g ∈ mergePopulation facts pops) :
    ∃ f ∈ facts, g.driverCount = f.driverCount ∧ g.crashId = f.crashId := by
  unfold mergePopulation at hg
  obtain ⟨f, hf, hgf⟩ := List.mem_flatMap.1 hg
  refine ⟨f, hf, ?_⟩
  simp only at hgf
  by_cases h : (pops.filter (fun p => decide (f.state = some p.state ∧ f.year = p.year))).isEmpty
  · rw [if_pos h] at hgf
    rcases List.mem_singleton.1 hgf with rfl
    exact ⟨rfl, rfl⟩
  · rw [if_neg h] at hgf
    obtain ⟨p, _, rfl⟩ := List.mem_map.1 hgf
    exact ⟨rfl, rfl⟩

theorem mem_yearlyEnrich (facts : List FactFinal) (g : FactFinal)
    (hg : g ∈ yearlyEnrich facts) :
    ∃ f ∈ facts, g.driverCount = f.driverCount ∧ g.crashId = f.crashId := by
  simp only [yearlyEnrich] at hg
  obtain ⟨f, hf, rfl⟩ := List.mem_map.1 hg
  exact ⟨f, hf, rfl, rfl⟩

/-- C4: on the assembled fact table every row's `driver_count` equals
the number of Driver rows sharing its crash id, and a crash with no
Driver rows gets 0 (the filter below is then empty).  The count survives
the later location/population merges and the yearly enrichment
untouched. -/
theorem driverCount_consistency (ct : List CrashTypeRow) (drivers : List DrvRow)
    (seasons : List SeasonRow) (locs : List LocIdRow) (pops : List PopIdRow)
    (out : List FactFinal)
    (hout : createFactStage ct drivers seasons locs pops = Except.ok out) :
    ∀ f ∈ out, f.driverCount = (drivers.filter (fun d => d.crashId = f.crashId)).length := by
  unfold createFactStage at hout
  cases hbase : ct.mapM decodeRow with
  | error e =>
    rw [hbase] at hout
    exact Except.noConfusion hout
  | ok base =>
    rw [hbase] at hout
    have hout' := Except.ok.inj hout
    subst hout'
    intro f hf
    obtain ⟨f₁, hf₁, hd₁, hc₁⟩ := mem_yearlyEnrich _ f hf
    obtain ⟨f₂, hf₂, hd₂, hc₂⟩ := mem_mergePopulation _ pops f₁ hf₁
    obtain ⟨f₃, hf₃, hd₃, hc₃⟩ := mem_mergeLocation _ locs f₂ hf₂
    obtain ⟨e, _, rfl⟩ := List.mem_map.1 hf₃
    rw [hd₁, hd₂, hd₃, hc₁, hc₂, hc₃]
    exact driverCountOf_eq drivers _

def c4ct : List CrashTypeRow := [{ crashId := 20211234, fatalities := some 2 }]

def c4drivers : List DrvRow :=
  [{ crashId := 20211234, driverId := 1 }, { crashId := 20211234, driverId := 2 }]

def c4out : List FactFinal :=
  [{ factId := 1, crashId := 20211234, timeId := none, locationId := none,
     roadConditionId := 20211234, seasonId := none, vehicleId := 20211234,
     driverCount := 2, populationId := none, lgaId := 20211234,
     fatalities := some 2, yearlyCrashCount := some 1, yearlyFatalityCount := some 2,
     crashDate := "2021-01-01", year := 2021, state := some "NSW" }]

def c4row : FactFinal :=
  { factId := 1, crashId := 20211234, timeId := none, locationId := none,
    roadConditionId := 20211234, seasonId := none, vehicleId := 20211234,
    driverCount := 2, populationId := none, lgaId := 20211234,
    fatalities := some 2, yearlyCrashCount := some 1, yearlyFatalityCount := some 2,
    crashDate := "2021-01-01", year := 2021, state := some "NSW" }

theorem driverCount_consistency_witness :
    c4row.driverCount = (c4drivers.filter (fun d => d.crashId = c4row.crashId)).length
    ∧ (c4drivers.filter (fun d => d.crashId = c4row.crashId)).length = 2 :=
  ⟨driverCount_consistency c4ct c4drivers [] [] [] c4out rfl c4row (by decide),
   by decide⟩

theorem find?_map_keyed (gs : List String) (h : String → Option ℚ) (g : String)
    (hg : g ∈ gs) :
    (gs.map (fun k => (k, h k))).find? (fun e => e.1 = g) = some (g, h g) := by
  induction gs with
  | nil => exact absurd hg (List.not_mem_nil g)
  | cons x t ih =>
    by_cases hx : x = g
    · subst hx
      rw [List.map_cons, List.find?_cons_of_pos _ (by simp)]
    · rw [List.map_cons, List.find?_cons_of_neg _ (by simp [hx])]
      rcases List.mem_cons.1 hg with rfl | hg'
      · exact absurd rfl hx
      · exact ih hg'

theorem getMedianAge_known (l : List DriverRow) (g : String)
    (hu : g ≠ "Unknown") (h9 : g ≠ "-9")
    (hmem : g ∈ l.filterMap (fun r => r.ageGroup)) :
    getMedianAge l (some g) = median (groupAges l g) := by
  simp only [getMedianAge]
  rw [if_neg (by simp [hu, h9])]
  have hgs : g ∈ (dropDups (l.filterMap (fun r => r.ageGroup))).filter
      (fun g' => g' ≠ "Unknown" ∧ g' ≠ "-9") :=
    List.mem_filter.2 ⟨mem_dropDups.2 hmem, by simp [hu, h9]⟩
  rw [ageGroupMapping, find?_map_keyed _ _ g hgs]

theorem groupAges_nil_of_knownAges_nil (l : List DriverRow) (hk : knownAges l = [])
    (g : String) : groupAges l g = [] := by
  rw [groupAges, List.filterMap_eq_nil_iff]
  intro r hr
  have := List.filterMap_eq_nil_iff.1 hk r (List.mem_of_mem_filter hr)
  exact this

theorem getMedianAge_none (l : List DriverRow) (hk : knownAges l = [])
    (ag : Option String) : getMedianAge l ag = none := by
  cases ag with
  | none => simp only [getMedianAge]; rw [hk]; rfl
  | some g =>
    simp only [getMedianAge]
    by_cases hg : g = "Unknown" ∨ g = "-9"
    · rw [if_pos hg, hk]; rfl
    · rw [if_neg hg]
      cases hfind : (ageGroupMapping l).find? (fun e => e.1 = g) with
      | none => rw [hk]; rfl
      | some e =>
        have hmem := List.mem_of_find?_eq_some hfind
        rw [ageGroupMapping] at hmem
        obtain ⟨g', _, rfl⟩ := List.mem_map.1 hmem
        simp only
        rw [groupAges_nil_of_knownAges_nil l hk g']
        rfl

theorem knownAges_fillStep1_nil (l : List DriverRow) (hk : knownAges l = []) :
    knownAges (fillStep1 l) = [] := by
  rw [knownAges, List.filterMap_eq_nil_iff]
  intro r' hr'
  rw [fillStep1] at hr'
  obtain ⟨r, hr, rfl⟩ := List.mem_map.1 hr'
  have hage : r.age = none := by
    cases hage : r.age with
    | none => rfl
    | some q =>
      have : q ∈ knownAges l := List.mem_filterMap.2 ⟨r, hr, hage⟩
      rw [hk] at this
      exact absurd this (List.not_mem_nil q)
  rw [if_pos (by rw [hage]; rfl)]
  exact getMedianAge_none l hk r.ageGroup

theorem fillAges_getElem (l : List DriverRow) (i : Nat) :
    (fillAges l)[i]? = ((l[i]?).map (fun r =>
      let r1 := if r.age.isNone then { r with age := getMedianAge l r.ageGroup } else r
      if r1.age.isNone then { r1 with age := median (knownAges (fillStep1 l)) } else r1)) := by
  show ((fillStep1 l).map _)[i]? = _
  rw [List.getElem?_map, fillStep1, List.getElem?_map]
  cases l[i]? <;> rfl

/-- C7 (amended): a Driver row with null age is backfilled as follows.
If its age-group label is present (not null, Unknown or -9) and other
rows of that group have known ages, it receives the median age of the
group, computed over the original table.  If the label is null, Unknown
or -9, it receives the overall median of the originally known ages.  But
if the label is present and the group has no known ages, the row is
first left null and then filled by the second pass with the median of
the HALF-UPDATED Age column (original known ages plus the ages just
written by the group fills), which can differ from the global median of
the Driver dimension. -/
theorem driverAge_backfill (l : List DriverRow) (i : Nat) (r : DriverRow)
    (hi : l[i]? = some r) (hnull : r.age = none) :
    (∀ g, r.ageGroup = some g → g ≠ "Unknown" → g ≠ "-9" → groupAges l g ≠ [] →
       ((driverFix l)[i]?).map (fun x => x.age) = some (median (groupAges l g)))
    ∧ ((r.ageGroup = none ∨ r.ageGroup = some "Unknown" ∨ r.ageGroup = some "-9") →
       ((driverFix l)[i]?).map (fun x => x.age) = some (median (knownAges l)))
    ∧ (∀ g, r.ageGroup = some g → g ≠ "Unknown" → g ≠ "-9" → groupAges l g = [] →
       ((driverFix l)[i]?).map (fun x => x.age) =
         some (median (knownAges (fillStep1 l)))) := by
  have hrmem : r ∈ l := by
    obtain ⟨h, he⟩ := List.getElem?_eq_some.1 hi
    exact he ▸ List.getElem_mem h
  have hany : l.any (fun x => x.age.isNone) = true :=
    List.any_eq_true.2 ⟨r, hrmem, by rw [hnull]; rfl⟩
  have hfix : driverFix l = fillAges l := by rw [driverFix, if_pos hany]
  have hstep : (fillAges l)[i]? = some (
      let r1 := if r.age.isNone then { r with age := getMedianAge l r.ageGroup } else r
      if r1.age.isNone then { r1 with age := median (knownAges (fillStep1 l)) } else r1) := by
    rw [fillAges_getElem, hi]
    rfl
  have hnone : r.age.isNone = true := by rw [hnull]; rfl
  refine ⟨?_, ?_, ?_⟩
  · intro g hg hu h9 hne
    have hmem : g ∈ l.filterMap (fun x => x.ageGroup) :=
      List.mem_filterMap.2 ⟨r, hrmem, hg⟩
    have hmed : getMedianAge l r.ageGroup = median (groupAges l g) := by
      rw [hg]; exact getMedianAge_known l g hu h9 hmem
    obtain ⟨q, hq⟩ := Option.isSome_iff_exists.1 (median_isSome hne)
    rw [hfix, hstep]
    simp only [hnone, if_pos, hmed, hq]
    rfl
  · intro hcase
    have hmed : getMedianAge l r.ageGroup = median (knownAges l) := by
      rcases hcase with h0 | h0 | h0 <;> rw [h0] <;> simp only [getMedianAge]
      · rw [if_pos (Or.inl trivial)]
      · rw [if_pos (Or.inr trivial)]
    rw [hfix, hstep]
    cases hkm : median (knownAges l) with
    | some q =>
      simp only [hnone, if_pos, hmed, hkm]
      rfl
    | none =>
      have hkn : knownAges l = [] := by
        by_contra hne
        have := median_isSome (l := knownAges l) hne
        rw [hkm] at this
        exact Bool.noConfusion this
      have hkn2 := knownAges_fillStep1_nil l hkn
      simp only [hnone, if_pos, hmed, hkm, hkn2]
      rfl
  · intro g hg hu h9 hemp
    have hmem : g ∈ l.filterMap (fun x => x.ageGroup) :=
      List.mem_filterMap.2 ⟨r, hrmem, hg⟩
    have hmed : getMedianAge l r.ageGroup = median (groupAges l g) := by
      rw [hg]; exact getMedianAge_known l g hu h9 hmem
    rw [hfix, hstep]
    simp only [hnone, if_pos, hmed, hemp]
    rfl

/-- The spec's backfill example: age group 17_to_25 with known ages
20, 22, 24 and one null-age row of that group. -/
def c7rows : List DriverRow :=
  [{ crashId := 1, age := some 20, ageGroup := some "17_to_25" },
   { crashId := 2, age := some 22, ageGroup := some "17_to_25" },
   { crashId := 3, age := some 24, ageGroup := some "17_to_25" },
   { crashId := 4, age := none, ageGroup := some "17_to_25" }]

theorem driverAge_backfill_witness :
    ((driverFix c7rows)[3]?).map (fun x => x.age) =
      some (median (groupAges c7rows "17_to_25"))
    ∧ median (groupAges c7rows "17_to_25") = some 22 :=
  ⟨(driverAge_backfill c7rows 3
      { crashId := 4, age := none, ageGroup := some "17_to_25" }
      (by decide) rfl).1 "17_to_25" rfl (by decide) (by decide) (by decide),
   by decide⟩

/-- Age groups g1 (known ages 10, 11), g2 (one known age 30, two null
rows) and g3 (one null row, no known ages). -/
def c7cex : List DriverRow :=
  [{ crashId := 1, age := some 10, ageGroup := some "g1" },
   { crashId := 2, age := some 11, ageGroup := some "g1" },
   { crashId := 3, age := some 30, ageGroup := some "g2" },
   { crashId := 4, age := none, ageGroup := some "g2" },
   { crashId := 5, age := none, ageGroup := some "g2" },
   { crashId := 6, age := none, ageGroup := some "g3" }]

/-- C7 counterexample: the g3 row has a present age group with no known
group ages, so per the claim it should receive the global median age of
the Driver dimension, which is 11; the code instead fills it with 30,
the median of the half-updated column after the g2 rows were set to
30. -/
theorem driverAge_backfill_cex :
    ((driverFix c7cex)[5]?).map (fun x => x.age) = some (some 30)
    ∧ median (knownAges c7cex) = some 11
    ∧ some (30 : ℚ) ≠ some (11 : ℚ) := ⟨by decide, by decide, by decide⟩

theorem filterCrashes_year (rawC : List RawCrash) :
    ∀ r ∈ filterCrashes rawC, 2001 ≤ r.year ∧ r.year ≤ 2023 := by
  intro r hr
  rw [filterCrashes] at hr
  obtain ⟨r₀, _, hsome⟩ := List.mem_filterMap.1 hr
  split at hsome
  next y hyeq =>
    split at hsome
    next hc =>
      rcases Option.some.inj hsome with rfl
      exact hc
    next hc => exact Option.noConfusion hsome
  next hyeq => exact Option.noConfusion hsome

theorem mem_driverFix (l : List DriverRow) (x : DriverRow) (hx : x ∈ driverFix l) :
    ∃ x₀ ∈ l, x.crashId = x₀.crashId := by
  have h1 : ∀ y : DriverRow,
      ((if y.age.isNone then { y with age := getMedianAge l y.ageGroup } else y) :
        DriverRow).crashId = y.crashId := by
    intro y; by_cases h : y.age.isNone <;> simp [h]
  rw [driverFix] at hx
  by_cases hany : l.any (fun r => r.age.isNone)
  · rw [if_pos hany] at hx
    simp only [fillAges] at hx
    obtain ⟨x₁, hx₁, rfl⟩ := List.mem_map.1 hx
    rw [fillStep1] at hx₁
    obtain ⟨x₀, hx₀, rfl⟩ := List.mem_map.1 hx₁
    refine ⟨x₀, hx₀, ?_⟩
    by_cases h2 : ((if x₀.age.isNone then { x₀ with age := getMedianAge l x₀.ageGroup }
        else x₀) : DriverRow).age.isNone
    · simp only [if_pos h2]
      rw [show ∀ y : DriverRow,
          ({ y with age := median (knownAges (fillStep1 l)) } : DriverRow).crashId =
            y.crashId from fun y => rfl]
      exact h1 x₀
    · simp only [if_neg h2]
      exact h1 x₀
  · rw [if_neg hany] at hx
    exact ⟨x, hx, rfl⟩

/-- C5: the year filter runs before any extraction, so every filtered
crash and fatality row has a year within 2001-2023, fatality rows whose
crash id is absent from the filtered crash set are dropped, every
year-bearing output table (Time, Season, the etl fact table) carries
only in-window years, and every extracted dimension row references a
crash (or area string) of the filtered crash set. -/
theorem yearWindow_invariant (rawC : List RawCrash) (rawF : List RawFatality)
    (remRefs : List RemRow) (lgaRefs : List LgaRefRow) :
    (∀ r ∈ filterCrashes rawC, 2001 ≤ r.year ∧ r.year ≤ 2023)
    ∧ (∀ f ∈ filterFatalities (filterCrashes rawC) rawF,
        (2001 ≤ f.year ∧ f.year ≤ 2023)
        ∧ f.crashId ∈ (filterCrashes rawC).map (fun c => c.crashId))
    ∧ (∀ t ∈ timeDim (filterCrashes rawC), 2001 ≤ t.year ∧ t.year ≤ 2023)
    ∧ (∀ s ∈ seasonDim (filterCrashes rawC), 2001 ≤ s.year ∧ s.year ≤ 2023)
    ∧ (∀ x ∈ factTableEtl (filterCrashes rawC), 2001 ≤ x.year ∧ x.year ≤ 2023)
    ∧ (∀ x ∈ locationDim (filterCrashes rawC),
        x.crashId ∈ (filterCrashes rawC).map (fun c => c.crashId))
    ∧ (∀ x ∈ vehicleDim (filterCrashes rawC),
        x.crashId ∈ (filterCrashes rawC).map (fun c => c.crashId))
    ∧ (∀ x ∈ roadConditionDim (filterCrashes rawC),
        x.crashId ∈ (filterCrashes rawC).map (fun c => c.crashId))
    ∧ (∀ x ∈ crashTypeDim (filterCrashes rawC),
        x.crashId ∈ (filterCrashes rawC).map (fun c => c.crashId))
    ∧ (∀ x ∈ driverDim (filterFatalities (filterCrashes rawC) rawF),
        x.crashId ∈ (filterCrashes rawC).map (fun c => c.crashId))
    ∧ (∀ p ∈ populationDim (filterCrashes rawC) remRefs,
        ∃ r ∈ filterCrashes rawC, r.remotenessArea = some p.area)
    ∧ (∀ g ∈ lgaDim (filterCrashes rawC) lgaRefs,
        ∃ r ∈ filterCrashes rawC, r.lgaName = some g.name) := by
  have hyb := filterCrashes_year rawC
  have hfat : ∀ f ∈ filterFatalities (filterCrashes rawC) rawF,
      (2001 ≤ f.year ∧ f.year ≤ 2023)
      ∧ f.crashId ∈ (filterCrashes rawC).map (fun c => c.crashId) := by
    intro f hf
    rw [filterFatalities] at hf
    obtain ⟨hf1, hf2⟩ := List.mem_filter.1 hf
    constructor
    · obtain ⟨f₀, _, hsome⟩ := List.mem_filterMap.1 hf1
      split at hsome
      next y hyeq =>
        split at hsome
        next hc =>
          rcases Option.some.inj hsome with rfl
          exact hc
        next hc => exact Option.noConfusion hsome
      next hyeq => exact Option.noConfusion hsome
    · exact List.elem_iff.1 hf2
  refine ⟨hyb, hfat, ?_, ?_, ?_, ?_, ?_, ?_, ?_, ?_, ?_, ?_⟩
  · intro t ht
    rw [timeDim] at ht
    obtain ⟨c, hc, rfl⟩ := List.mem_map.1 (mem_dropDups.1 ht)
    exact hyb c hc
  · intro s hs
    rw [seasonDim] at hs
    obtain ⟨p, hp, rfl⟩ := List.mem_map.1 hs
    obtain ⟨c, hc, rfl⟩ := List.mem_map.1 (mem_dropDups.1 hp)
    exact hyb c hc
  · intro x hx
    simp only [factTableEtl] at hx
    obtain ⟨c, hc, rfl⟩ := List.mem_map.1 (mem_dropDups.1 hx)
    exact hyb c hc
  · intro x hx
    rw [locationDim] at hx
    obtain ⟨c, hc, rfl⟩ := List.mem_map.1 (mem_dropDups.1 hx)
    exact List.mem_map.2 ⟨c, hc, rfl⟩
  · intro x hx
    rw [vehicleDim] at hx
    obtain ⟨c, hc, rfl⟩ := List.mem_map.1 (mem_dropDups.1 hx)
    exact List.mem_map.2 ⟨c, hc, rfl⟩
  · intro x hx
    rw [roadConditionDim] at hx
    obtain ⟨c, hc, rfl⟩ := List.mem_map.1 (mem_dropDups.1 hx)
    exact List.mem_map.2 ⟨c, hc, rfl⟩
  · intro x hx
    rw [crashTypeDim] at hx
    obtain ⟨c, hc, rfl⟩ := List.mem_map.1 (mem_dropDups.1 hx)
    exact List.mem_map.2 ⟨c, hc, rfl⟩
  · intro x hx
    rw [driverDim] at hx
    obtain ⟨x₀, hx₀, hcid⟩ := mem_driverFix _ x (mem_dropDups.1 hx)
    obtain ⟨f, hfmem, rfl⟩ := List.mem_map.1 hx₀
    rw [hcid]
    exact (hfat f hfmem).2
  · intro p hp
    rw [populationDim] at hp
    obtain ⟨area, harea, rfl⟩ := List.mem_map.1 hp
    obtain ⟨r, hr, hsome⟩ := List.mem_filterMap.1 (mem_dropDups.1 harea)
    exact ⟨r, hr, hsome⟩
  · intro g hg
    rw [lgaDim] at hg
    obtain ⟨lga, hlga, hgl⟩ := List.mem_map.1 hg
    obtain ⟨hl1, _⟩ := List.mem_filter.1 hlga
    obtain ⟨r, hr, hsome⟩ := List.mem_filterMap.1 (mem_dropDups.1 hl1)
    refine ⟨r, hr, ?_⟩
    rw [hsome]
    cases hf : lgaRefs.find? (fun ref => containsStr ref.name lga) <;>
      rw [hf] at hgl <;> rw [← hgl]

theorem yearWindow_invariant_witness :
    (2001 ≤ (2010 : Int) ∧ (2010 : Int) ≤ 2023)
    ∧ ((11234567 : Int) ∈ (filterCrashes
        [{ crashId := 11234567, year := some 2010, month := 1 }]).map
          (fun c => c.crashId)) :=
  ⟨(yearWindow_invariant
      [{ crashId := 11234567, year := some 2010, month := 1 }] [] [] []).1
      { crashId := 11234567, year := 2010, month := 1 } (by decide),
   ((yearWindow_invariant
      [{ crashId := 11234567, year := some 2010, month := 1 }]
      [{ crashId := 11234567, year := some 2010 }] [] []).2.1
      { crashId := 11234567, year := 2010 } (by decide)).2⟩

end TS
